import Mathlib

/-!
Shallow embedding of the C-Library repository: a software debounce filter
(two iterations, v1.1 and v1.0) and an edge detection library.

Modelling conventions:
* `uint8_t` / `uint32_t` values are `Nat`; the 32-bit counters wrap via `% U32`.
* A possibly-NULL instance pointer is `Option` of the state structure; every
  operation matches the C null guard (`if (!d) return ...`).
* The user-supplied `time_ref` function pointer is modelled as a response
  stream `resp : Nat → Bool` together with an explicit call counter `k`
  threaded through each operation: the k-th invocation of the pointer
  returns `resp k` and bumps the counter.  A NULL pointer is
  `hasTimeRef = false`.
* The edge detector's optional `on_edge` callback is modelled as an event
  log (`List EdgeType`) to which each invocation appends its argument;
  a NULL callback is `hasCallback = false`.
-/

namespace CLib

/-- Normalize any value to strictly 0 or 1 (`norm01` in edge_detector.c and
the `input = (input != 0)` normalization in both debounce.c iterations). -/
def norm01 (x : Nat) : Nat := if x ≠ 0 then 1 else 0

/-! ## Debounce data model (struct Debounce in debounce.h) -/

/-- The `Debounce` struct: `prev_input`, `stable_output`, and whether the
`time_ref` function pointer is non-NULL. -/
structure Debounce where
  prev_input : Nat
  stable_output : Nat
  hasTimeRef : Bool
deriving Repr, DecidableEq

/-- One invocation of the user's `time_ref` function pointer: returns the
next response of the stream and advances the call counter. -/
def timeRefCall (resp : Nat → Bool) (k : Nat) : Bool × Nat := (resp k, k + 1)

/-- The v1.1 helper `_debounce_time_ready`: if `time_ref` is NULL it returns 1
without any call; otherwise it calls `time_ref()` once. -/
def debounce_time_ready (d : Debounce) (resp : Nat → Bool) (k : Nat) :
    Bool × Nat :=
  if d.hasTimeRef then timeRefCall resp k else (true, k)

/-- `debounce_init` (v1.1): null-guarded; synchronizes both `prev_input` and
`stable_output` with the normalized initial input and stores `time_ref`. -/
def debounce_init (d : Option Debounce) (hasTimeRef : Bool)
    (initial_input : Nat) : Option Debounce :=
  match d with
  | none => none
  | some _ =>
      some { prev_input := norm01 initial_input
             stable_output := norm01 initial_input
             hasTimeRef := hasTimeRef }

/-- `debounce_update` (v1.1): returns the debounced output, the new state and
the new predicate-call counter.  On a raw change it records the new raw
input, makes one discarded call to `_debounce_time_ready`, and returns the
unchanged stable output; otherwise it accepts the input as stable exactly
when `_debounce_time_ready` signals ready. -/
def debounce_update (d : Option Debounce) (resp : Nat → Bool) (k : Nat)
    (input : Nat) : Nat × Option Debounce × Nat :=
  match d with
  | none => (0, none, k)
  | some d =>
      let current := norm01 input
      if current ≠ d.prev_input then
        let d' : Debounce := { d with prev_input := current }
        let r := debounce_time_ready d' resp k
        (d'.stable_output, some d', r.2)
      else
        let r := debounce_time_ready d resp k
        if r.1 then
          (current, some { d with stable_output := current }, r.2)
        else
          (d.stable_output, some d, r.2)

/-- `debounce_init` of the v1.0 iteration: no initial-input argument; both
fields start at 0. -/
def debounce_init_v0 (d : Option Debounce) (hasTimeRef : Bool) :
    Option Debounce :=
  match d with
  | none => none
  | some _ => some { prev_input := 0, stable_output := 0, hasTimeRef := hasTimeRef }

/-- `debounce_update` of the v1.0 iteration: like v1.1 but without the
null-predicate fallback: the stable check is `d->time_ref && d->time_ref()`,
and on the changed branch the predicate is called only `if (d->time_ref)`. -/
def debounce_update_v0 (d : Option Debounce) (resp : Nat → Bool) (k : Nat)
    (input : Nat) : Nat × Option Debounce × Nat :=
  match d with
  | none => (0, none, k)
  | some d =>
      let current := norm01 input
      if current ≠ d.prev_input then
        let d' : Debounce := { d with prev_input := current }
        let k' := if d.hasTimeRef then (timeRefCall resp k).2 else k
        (d'.stable_output, some d', k')
      else
        if d.hasTimeRef then
          let r := timeRefCall resp k
          if r.1 then
            (current, some { d with stable_output := current }, r.2)
          else
            (d.stable_output, some d, r.2)
        else
          (d.stable_output, some d, k)

/-- Iterated `debounce_update` (v1.1) over a list of raw samples; returns the
list of outputs, the final state and the final call counter. -/
def debounce_run (d : Option Debounce) (resp : Nat → Bool) (k : Nat) :
    List Nat → List Nat × Option Debounce × Nat
  | [] => ([], d, k)
  | i :: is =>
      let r := debounce_update d resp k i
      let rest := debounce_run r.2.1 resp r.2.2 is
      (r.1 :: rest.1, rest.2.1, rest.2.2)

/-- Iterated `debounce_update_v0` over a list of raw samples. -/
def debounce_run_v0 (d : Option Debounce) (resp : Nat → Bool) (k : Nat) :
    List Nat → List Nat × Option Debounce × Nat
  | [] => ([], d, k)
  | i :: is =>
      let r := debounce_update_v0 d resp k i
      let rest := debounce_run_v0 r.2.1 resp r.2.2 is
      (r.1 :: rest.1, rest.2.1, rest.2.2)

/-! ## Edge detector data model (edge_detector.h / edge_detector.c) -/

/-- The `EdgeType` enum. -/
inductive EdgeType where
  | EDGE_NONE
  | EDGE_RISING
  | EDGE_FALLING
  | EDGE_BOTH
deriving Repr, DecidableEq

/-- Wrap-around modulus of the `uint32_t` edge counters. -/
def U32 : Nat := 2 ^ 32

/-- The `EdgeDetector` struct: previous normalized sample, the two `uint32_t`
counters, and whether the `on_edge` callback pointer is non-NULL. -/
structure EdgeDetector where
  prev : Nat
  rise_count : Nat
  fall_count : Nat
  hasCallback : Bool
deriving Repr, DecidableEq

/-- The helper `_edge_invoke_callback`: appends the event to the callback log
when the callback is assigned. -/
def edge_invoke_callback (det : EdgeDetector) (log : List EdgeType)
    (t : EdgeType) : List EdgeType :=
  if det.hasCallback then log ++ [t] else log

/-- `edge_init`: null-guarded; normalizes the initial state, zeroes the
counters and clears the callback. -/
def edge_init (det : Option EdgeDetector) (initial_state : Nat) :
    Option EdgeDetector :=
  match det with
  | none => none
  | some _ =>
      some { prev := norm01 initial_state, rise_count := 0, fall_count := 0,
             hasCallback := false }

/-- `edge_update`: classifies the transition from `prev` to the normalized
input, increments the matching counter (wrapping at 2^32), invokes the
callback on an edge, stores the normalized input as `prev`, and returns the
classification together with the new state and callback log. -/
def edge_update (det : Option EdgeDetector) (log : List EdgeType)
    (input : Nat) : EdgeType × Option EdgeDetector × List EdgeType :=
  match det with
  | none => (EdgeType.EDGE_NONE, none, log)
  | some det =>
      let current := norm01 input
      if det.prev = 0 ∧ current = 1 then
        (EdgeType.EDGE_RISING,
         some { det with rise_count := (det.rise_count + 1) % U32,
                         prev := current },
         edge_invoke_callback det log EdgeType.EDGE_RISING)
      else if det.prev = 1 ∧ current = 0 then
        (EdgeType.EDGE_FALLING,
         some { det with fall_count := (det.fall_count + 1) % U32,
                         prev := current },
         edge_invoke_callback det log EdgeType.EDGE_FALLING)
      else
        (EdgeType.EDGE_NONE, some { det with prev := current }, log)

/-- `edge_both`: null-guarded; calls `edge_update` once and returns 1 exactly
when the detected type is not `EDGE_NONE`. -/
def edge_both (det : Option EdgeDetector) (log : List EdgeType)
    (input : Nat) : Nat × Option EdgeDetector × List EdgeType :=
  match det with
  | none => (0, none, log)
  | some det =>
      let r := edge_update (some det) log input
      ((if r.1 ≠ EdgeType.EDGE_NONE then 1 else 0), r.2.1, r.2.2)

/-- `edge_reset`: null-guarded; zeroes both counters only. -/
def edge_reset (det : Option EdgeDetector) : Option EdgeDetector :=
  match det with
  | none => none
  | some det => some { det with rise_count := 0, fall_count := 0 }

/-- `edge_get_rise_count`: null-guarded pure accessor. -/
def edge_get_rise_count (det : Option EdgeDetector) : Nat :=
  match det with
  | none => 0
  | some det => det.rise_count

/-- `edge_get_fall_count`: null-guarded pure accessor. -/
def edge_get_fall_count (det : Option EdgeDetector) : Nat :=
  match det with
  | none => 0
  | some det => det.fall_count

/-- Iterated `edge_update` over a list of raw samples; returns the list of
classifications, the final state and the final callback log. -/
def edge_run (det : Option EdgeDetector) (log : List EdgeType) :
    List Nat → List EdgeType × Option EdgeDetector × List EdgeType
  | [] => ([], det, log)
  | i :: is =>
      let r := edge_update det log i
      let rest := edge_run r.2.1 r.2.2 is
      (r.1 :: rest.1, rest.2.1, rest.2.2)

/-! ## Theorems -/

/-- C3: starting from edge-detector init(0), the sample sequence 0,0,1,1,0,1
classifies as None,None,Rising,None,Falling,Rising and leaves rise_count = 2
and fall_count = 1. -/
theorem edge_sequence_example :
    (edge_run (edge_init (some ⟨7, 3, 4, true⟩) 0) [] [0, 0, 1, 1, 0, 1]).1 =
      [EdgeType.EDGE_NONE, EdgeType.EDGE_NONE, EdgeType.EDGE_RISING,
       EdgeType.EDGE_NONE, EdgeType.EDGE_FALLING, EdgeType.EDGE_RISING] ∧
    edge_get_rise_count
      (edge_run (edge_init (some ⟨7, 3, 4, true⟩) 0) [] [0, 0, 1, 1, 0, 1]).2.1 = 2 ∧
    edge_get_fall_count
      (edge_run (edge_init (some ⟨7, 3, 4, true⟩) 0) [] [0, 0, 1, 1, 0, 1]).2.1 = 1 := by
  decide

/-- C1: on a raw sample whose normalized value differs from the stored
`prev_input`, `debounce_update` (in both iterations) stores the normalized
sample into `prev_input`, returns the previous `stable_output` unchanged,
and queries the predicate, when present, exactly once (the call counter
advances by one) with the returned boolean discarded (the result and the
post-state do not depend on the predicate's responses). -/
theorem debounce_update_change_latch (d : Debounce) (resp resp' : Nat → Bool)
    (k input : Nat) (h : norm01 input ≠ d.prev_input) :
    debounce_update (some d) resp k input =
      (d.stable_output, some { d with prev_input := norm01 input },
        if d.hasTimeRef then k + 1 else k) ∧
    debounce_update (some d) resp k input =
      debounce_update (some d) resp' k input ∧
    debounce_update_v0 (some d) resp k input =
      (d.stable_output, some { d with prev_input := norm01 input },
        if d.hasTimeRef then k + 1 else k) ∧
    debounce_update_v0 (some d) resp k input =
      debounce_update_v0 (some d) resp' k input := by
  cases hr : d.hasTimeRef <;>
    simp [debounce_update, debounce_update_v0, debounce_time_ready,
      timeRefCall, h, hr]

/-- Witness for C1: a concrete changed sample on a concrete state. -/
theorem debounce_update_change_latch_witness :
    debounce_update (some ⟨0, 0, true⟩) (fun _ => false) 0 1 =
      (0, some ⟨1, 0, true⟩, 1) ∧
    debounce_update (some ⟨0, 0, true⟩) (fun _ => false) 0 1 =
      debounce_update (some ⟨0, 0, true⟩) (fun _ => true) 0 1 ∧
    debounce_update_v0 (some ⟨0, 0, true⟩) (fun _ => false) 0 1 =
      (0, some ⟨1, 0, true⟩, 1) ∧
    debounce_update_v0 (some ⟨0, 0, true⟩) (fun _ => false) 0 1 =
      debounce_update_v0 (some ⟨0, 0, true⟩) (fun _ => true) 0 1 :=
  debounce_update_change_latch ⟨0, 0, true⟩ (fun _ => false) (fun _ => true)
    0 1 (by decide)

/-- C2: with an absent predicate the debounce output tracks the raw input
with exactly one call of latency: the concrete trace from init(raw=0) is
Update(1)=0, Update(1)=1, Update(0)=1, Update(0)=0; and in general (with an
absent predicate, and likewise with an always-true predicate) the second of
two consecutive updates with the same value returns that normalized value. -/
theorem debounce_one_call_latency :
    ((debounce_update (debounce_init (some ⟨0, 0, false⟩) false 0)
        (fun _ => true) 0 1).1 = 0 ∧
     (debounce_update
        (debounce_update (debounce_init (some ⟨0, 0, false⟩) false 0)
          (fun _ => true) 0 1).2.1 (fun _ => true) 0 1).1 = 1 ∧
     (debounce_update
        (debounce_update
          (debounce_update (debounce_init (some ⟨0, 0, false⟩) false 0)
            (fun _ => true) 0 1).2.1 (fun _ => true) 0 1).2.1
        (fun _ => true) 0 0).1 = 1 ∧
     (debounce_update
        (debounce_update
          (debounce_update
            (debounce_update (debounce_init (some ⟨0, 0, false⟩) false 0)
              (fun _ => true) 0 1).2.1 (fun _ => true) 0 1).2.1
          (fun _ => true) 0 0).2.1 (fun _ => true) 0 0).1 = 0) ∧
    (∀ (d : Debounce) (v k : Nat) (resp : Nat → Bool),
      d.hasTimeRef = false →
      (debounce_update (debounce_update (some d) resp k v).2.1 resp
        (debounce_update (some d) resp k v).2.2 v).1 = norm01 v) ∧
    (∀ (d : Debounce) (v k : Nat),
      (debounce_update (debounce_update (some d) (fun _ => true) k v).2.1
        (fun _ => true)
        (debounce_update (some d) (fun _ => true) k v).2.2 v).1 = norm01 v) := by
  refine ⟨by decide, ?_, ?_⟩
  · intro d v k resp h
    by_cases hc : norm01 v ≠ d.prev_input <;>
      simp [debounce_update, debounce_time_ready, hc, h]
  · intro d v k
    cases hr : d.hasTimeRef <;>
      by_cases hc : norm01 v ≠ d.prev_input <;>
        simp [debounce_update, debounce_time_ready, timeRefCall, hc, hr]

/-- Witness for C2: the one-call-latency conjunct at a concrete state. -/
theorem debounce_one_call_latency_witness :
    (debounce_update
      (debounce_update (some ⟨0, 0, false⟩) (fun _ => false) 0 1).2.1
      (fun _ => false)
      (debounce_update (some ⟨0, 0, false⟩) (fun _ => false) 0 1).2.2 1).1 =
      norm01 1 :=
  debounce_one_call_latency.2.1 ⟨0, 0, false⟩ 1 0 (fun _ => false) rfl

/-- C4: `edge_both` returns 1 exactly when `edge_update` on the same state
and sample returns a non-None classification, and its post-state and
callback log are exactly those of a single `edge_update` transition (it
advances the detector exactly once, never re-stepping). -/
theorem edge_both_refines_classify (det : Option EdgeDetector)
    (log : List EdgeType) (input : Nat) :
    edge_both det log input =
      ((if (edge_update det log input).1 ≠ EdgeType.EDGE_NONE then 1 else 0),
       (edge_update det log input).2.1, (edge_update det log input).2.2) := by
  cases det with
  | none => rfl
  | some det => rfl

/-- Incrementing a wrapped `uint32_t` counter never leaves it fixed. -/
lemma succ_mod_U32_ne (c : Nat) : (c + 1) % U32 ≠ c := by
  have h32 : U32 = 4294967296 := by norm_num [U32]
  rw [h32]
  omega

/-- C5: one `edge_update` step changes `rise_count` (by exactly one,
wrapping at 2^32) if and only if the step classifies as Rising, and
symmetrically for `fall_count` and Falling; `edge_reset` is the operation
that zeroes both counters. -/
theorem edge_update_counter_invariant (det : EdgeDetector)
    (log : List EdgeType) (input : Nat) :
    ((edge_update (some det) log input).2.1.getD det).rise_count =
      (if (edge_update (some det) log input).1 = EdgeType.EDGE_RISING
       then (det.rise_count + 1) % U32 else det.rise_count) ∧
    ((edge_update (some det) log input).2.1.getD det).fall_count =
      (if (edge_update (some det) log input).1 = EdgeType.EDGE_FALLING
       then (det.fall_count + 1) % U32 else det.fall_count) ∧
    ((edge_update (some det) log input).1 = EdgeType.EDGE_RISING ↔
      ((edge_update (some det) log input).2.1.getD det).rise_count ≠
        det.rise_count) ∧
    ((edge_update (some det) log input).1 = EdgeType.EDGE_FALLING ↔
      ((edge_update (some det) log input).2.1.getD det).fall_count ≠
        det.fall_count) ∧
    edge_reset (some det) = some { det with rise_count := 0, fall_count := 0 } := by
  by_cases h1 : det.prev = 0 ∧ norm01 input = 1
  · simp [edge_update, edge_reset, h1, succ_mod_U32_ne]
  · by_cases h2 : det.prev = 1 ∧ norm01 input = 0
    · simp [edge_update, edge_reset, h1, h2, succ_mod_U32_ne]
    · simp [edge_update, edge_reset, h1, h2]

/-- One v1.1 update with an always-false predicate: the output is the
unchanged stable value, only `prev_input` may move, and the predicate is
called exactly once. -/
lemma debounce_update_false_eq (d : Debounce) (hd : d.hasTimeRef = true)
    (k input : Nat) :
    debounce_update (some d) (fun _ => false) k input =
      (d.stable_output,
       some (if norm01 input ≠ d.prev_input
             then { d with prev_input := norm01 input } else d), k + 1) := by
  by_cases hc : norm01 input ≠ d.prev_input <;>
    simp [debounce_update, debounce_time_ready, timeRefCall, hc, hd]

/-- Run-level invariant for the always-false predicate: every output equals
the starting stable value and the final state keeps it. -/
lemma debounce_run_false_invariant (inputs : List Nat) :
    ∀ (d : Debounce) (k : Nat), d.hasTimeRef = true →
      (∀ r ∈ (debounce_run (some d) (fun _ => false) k inputs).1,
        r = d.stable_output) ∧
      (∀ e, (debounce_run (some d) (fun _ => false) k inputs).2.1 = some e →
        e.stable_output = d.stable_output ∧ e.hasTimeRef = true) := by
  induction inputs with
  | nil =>
      intro d k hd
      refine ⟨by simp [debounce_run], fun e he => ?_⟩
      simp [debounce_run] at he
      subst he
      exact ⟨rfl, hd⟩
  | cons i is ih =>
      intro d k hd
      have hstep := debounce_update_false_eq d hd k i
      have hTR : (if norm01 i ≠ d.prev_input
          then { d with prev_input := norm01 i } else d).hasTimeRef = true := by
        split <;> exact hd
      have hst : (if norm01 i ≠ d.prev_input
          then { d with prev_input := norm01 i } else d).stable_output =
          d.stable_output := by
        split <;> rfl
      have ihd := ih (if norm01 i ≠ d.prev_input
        then { d with prev_input := norm01 i } else d) (k + 1) hTR
      constructor
      · intro r hr
        simp only [debounce_run, hstep] at hr
        rcases List.mem_cons.mp hr with h | h
        · exact h
        · have := ihd.1 r h
          rwa [hst] at this
      · intro e he
        simp only [debounce_run, hstep] at he
        have := ihd.2 e he
        rw [hst] at this
        exact this

/-- C6: for every debounce state whose predicate always returns false, every
`debounce_update` over any raw input sequence returns the stable value held
at the start and the stable value never changes. -/
theorem debounce_never_ready_constant (d : Debounce) (hd : d.hasTimeRef = true)
    (inputs : List Nat) (k : Nat) :
    (∀ r ∈ (debounce_run (some d) (fun _ => false) k inputs).1,
      r = d.stable_output) ∧
    (∀ e, (debounce_run (some d) (fun _ => false) k inputs).2.1 = some e →
      e.stable_output = d.stable_output) :=
  ⟨(debounce_run_false_invariant inputs d k hd).1,
   fun e he => ((debounce_run_false_invariant inputs d k hd).2 e he).1⟩

/-- Witness for C6: a concrete always-false run keeps the stable value 1. -/
theorem debounce_never_ready_constant_witness :
    (1 : Nat) = (⟨0, 1, true⟩ : Debounce).stable_output :=
  (debounce_never_ready_constant ⟨0, 1, true⟩ rfl [1, 0, 1] 0).1 1 (by decide)

/-- C7: `edge_reset` zeroes exactly the two counters, leaving `prev` and the
callback reference unchanged; both count accessors return 0 immediately
after, and a subsequent `edge_update` classifies identically to one on the
un-reset state (it still uses the pre-reset `prev`). -/
theorem edge_reset_frame (det : EdgeDetector) (log : List EdgeType)
    (input : Nat) :
    edge_reset (some det) = some { det with rise_count := 0, fall_count := 0 } ∧
    edge_get_rise_count (edge_reset (some det)) = 0 ∧
    edge_get_fall_count (edge_reset (some det)) = 0 ∧
    ((edge_reset (some det)).getD det).prev = det.prev ∧
    ((edge_reset (some det)).getD det).hasCallback = det.hasCallback ∧
    (edge_update (edge_reset (some det)) log input).1 =
      (edge_update (some det) log input).1 := by
  refine ⟨rfl, rfl, rfl, rfl, rfl, ?_⟩
  by_cases h1 : det.prev = 0 ∧ norm01 input = 1
  · simp [edge_update, edge_reset, h1]
  · by_cases h2 : det.prev = 1 ∧ norm01 input = 0
    · simp [edge_update, edge_reset, h1, h2]
    · simp [edge_update, edge_reset, h1, h2]

/-- C9: every operation of both components invoked with a missing (null)
state reference performs no state mutation and returns the neutral default:
0 for integer-returning operations and EDGE_NONE for classification. -/
theorem null_state_safe (hasRef : Bool) (initial : Nat) (resp : Nat → Bool)
    (k input : Nat) (log : List EdgeType) :
    debounce_init none hasRef initial = none ∧
    debounce_update none resp k input = (0, none, k) ∧
    debounce_init_v0 none hasRef = none ∧
    debounce_update_v0 none resp k input = (0, none, k) ∧
    edge_init none initial = none ∧
    edge_update none log input = (EdgeType.EDGE_NONE, none, log) ∧
    edge_both none log input = (0, none, log) ∧
    edge_reset none = none ∧
    edge_get_rise_count none = 0 ∧
    edge_get_fall_count none = 0 := by
  exact ⟨rfl, rfl, rfl, rfl, rfl, rfl, rfl, rfl, rfl, rfl⟩

/-- C8: every nonzero raw input is equivalent to 1 for `debounce_update`
(both iterations), `edge_update` and `edge_both`: same return value, same
post-state, same predicate-call counter and callback log; and input 0
normalizes to 0. -/
theorem nonzero_input_equiv_one (input : Nat) (h : input ≠ 0)
    (d : Option Debounce) (resp : Nat → Bool) (k : Nat)
    (det : Option EdgeDetector) (log : List EdgeType) :
    debounce_update d resp k input = debounce_update d resp k 1 ∧
    debounce_update_v0 d resp k input = debounce_update_v0 d resp k 1 ∧
    edge_update det log input = edge_update det log 1 ∧
    edge_both det log input = edge_both det log 1 ∧
    norm01 0 = 0 := by
  have hn : norm01 input = norm01 1 := by simp [norm01, h]
  cases d <;> cases det <;>
    simp only [debounce_update, debounce_update_v0, edge_update, edge_both,
      hn] <;>
    simp [norm01]

/-- Witness for C8: input 5 behaves as input 1 on concrete states. -/
theorem nonzero_input_equiv_one_witness :
    debounce_update (some ⟨0, 0, false⟩) (fun _ => true) 0 5 =
      debounce_update (some ⟨0, 0, false⟩) (fun _ => true) 0 1 ∧
    debounce_update_v0 (some ⟨0, 0, false⟩) (fun _ => true) 0 5 =
      debounce_update_v0 (some ⟨0, 0, false⟩) (fun _ => true) 0 1 ∧
    edge_update (some ⟨0, 0, 0, false⟩) [] 5 =
      edge_update (some ⟨0, 0, 0, false⟩) [] 1 ∧
    edge_both (some ⟨0, 0, 0, false⟩) [] 5 =
      edge_both (some ⟨0, 0, 0, false⟩) [] 1 ∧
    norm01 0 = 0 :=
  nonzero_input_equiv_one 5 (by decide) (some ⟨0, 0, false⟩) (fun _ => true) 0
    (some ⟨0, 0, 0, false⟩) []

/-- One v1.0 update with a NULL `time_ref`: the output is the unchanged
stable value, only `prev_input` may move, and the predicate is never
called. -/
lemma debounce_update_v0_no_ref_eq (d : Debounce) (hd : d.hasTimeRef = false)
    (resp : Nat → Bool) (k input : Nat) :
    debounce_update_v0 (some d) resp k input =
      (d.stable_output,
       some (if norm01 input ≠ d.prev_input
             then { d with prev_input := norm01 input } else d), k) := by
  by_cases hc : norm01 input ≠ d.prev_input <;>
    simp [debounce_update_v0, hc, hd]

/-- Run-level invariant for v1.0 with a NULL `time_ref`: every output equals
the starting stable value and the final state keeps it. -/
lemma debounce_run_v0_no_ref_invariant (inputs : List Nat) :
    ∀ (d : Debounce) (resp : Nat → Bool) (k : Nat), d.hasTimeRef = false →
      (∀ r ∈ (debounce_run_v0 (some d) resp k inputs).1,
        r = d.stable_output) ∧
      (∀ e, (debounce_run_v0 (some d) resp k inputs).2.1 = some e →
        e.stable_output = d.stable_output ∧ e.hasTimeRef = false) := by
  induction inputs with
  | nil =>
      intro d resp k hd
      refine ⟨by simp [debounce_run_v0], fun e he => ?_⟩
      simp [debounce_run_v0] at he
      subst he
      exact ⟨rfl, hd⟩
  | cons i is ih =>
      intro d resp k hd
      have hstep := debounce_update_v0_no_ref_eq d hd resp k i
      have hTR : (if norm01 i ≠ d.prev_input
          then { d with prev_input := norm01 i } else d).hasTimeRef = false := by
        split <;> exact hd
      have hst : (if norm01 i ≠ d.prev_input
          then { d with prev_input := norm01 i } else d).stable_output =
          d.stable_output := by
        split <;> rfl
      have ihd := ih (if norm01 i ≠ d.prev_input
        then { d with prev_input := norm01 i } else d) resp k hTR
      constructor
      · intro r hr
        simp only [debounce_run_v0, hstep] at hr
        rcases List.mem_cons.mp hr with h | h
        · exact h
        · have := ihd.1 r h
          rwa [hst] at this
      · intro e he
        simp only [debounce_run_v0, hstep] at he
        have := ihd.2 e he
        rw [hst] at this
        exact this

/-- C10: in the v1.0 iteration (no null-predicate fallback), with a NULL
`time_ref` every `debounce_update_v0` call returns the stable value held at
the start and never changes it; in particular after `debounce_init_v0` every
output is 0 for any input sequence — the absent predicate behaves as never
ready, not as immediate pass-through. -/
theorem debounce_v0_absent_ref_never_ready (d0 : Debounce)
    (hd : d0.hasTimeRef = false) (inputs : List Nat) (resp : Nat → Bool)
    (k : Nat) :
    (∀ r ∈ (debounce_run_v0 (some d0) resp k inputs).1,
      r = d0.stable_output) ∧
    (∀ e, (debounce_run_v0 (some d0) resp k inputs).2.1 = some e →
      e.stable_output = d0.stable_output) ∧
    (∀ r ∈ (debounce_run_v0 (debounce_init_v0 (some d0) false) resp k
        inputs).1, r = 0) :=
  ⟨(debounce_run_v0_no_ref_invariant inputs d0 resp k hd).1,
   fun e he => ((debounce_run_v0_no_ref_invariant inputs d0 resp k hd).2 e he).1,
   (debounce_run_v0_no_ref_invariant inputs ⟨0, 0, false⟩ resp k rfl).1⟩

/-- Witness for C10: a concrete no-time-ref v1.0 run keeps the stable
value 1. -/
theorem debounce_v0_absent_ref_never_ready_witness :
    (1 : Nat) = (⟨1, 1, false⟩ : Debounce).stable_output :=
  (debounce_v0_absent_ref_never_ready ⟨1, 1, false⟩ rfl [0, 1, 5]
    (fun _ => true) 0).1 1 (by decide)

end CLib
